import Mathlib

/-
  Shallow embedding of the Visual-Navigation core:
  - trajectory/spline/spline_3rd_order.py (Spline3rdOrder.fit, _eval_spline)
  - systems/dubins_v1.py (Dubins_v1)
  - systems/dubins_v2.py (Dubins_v2)
  Real numbers stand for the float32 tensors; batched [n, k] tensors are
  embedded as index functions over the batch and step indices.
-/

noncomputable section

/-- A small stacking helper mirroring tf.stack of two channels. -/
def stack2 {α : Type} (a b : α) : Fin 2 → α :=
  fun r => match r with
  | 0 => a
  | 1 => b

/-- A small stacking helper mirroring tf.stack of three channels. -/
def stack3 {α : Type} (a b c : α) : Fin 3 → α :=
  fun r => match r with
  | 0 => a
  | 1 => b
  | 2 => c

/-- Batched state tensor x_nk3, embedded as an index function. -/
def StateTensor : Type := ℕ → ℕ → Fin 3 → ℝ

/-- Batched control tensor u_nk2, embedded as an index function. -/
def CtrlTensor : Type := ℕ → ℕ → Fin 2 → ℝ

/- ===== Spline3rdOrder (trajectory/spline/spline_3rd_order.py) ===== -/

/-- One batch row of start_n5: columns x0, y0, theta0, v0 (column 4 unused by fit). -/
structure Start5 where
  x0 : ℝ
  y0 : ℝ
  t0 : ℝ
  v0 : ℝ

/-- One batch row of goal_n5: columns xg, yg, thetag, vg (column 4 unused by fit). -/
structure Goal5 where
  xg : ℝ
  yg : ℝ
  tg : ℝ
  vg : ℝ

/-- The per-batch-row coefficient state set by Spline3rdOrder.fit:
x_coeffs = [a1, b1, c1, d1], y_coeffs = [a2, b2, c2, d2], p_coeffs = [a3, b3, c3]. -/
structure SplineCoeffs where
  a1 : ℝ
  b1 : ℝ
  c1 : ℝ
  d1 : ℝ
  a2 : ℝ
  b2 : ℝ
  c2 : ℝ
  d2 : ℝ
  a3 : ℝ
  b3 : ℝ
  c3 : ℝ

/-- The heuristic shaping factor of fit when factors_n2 is None:
tf.norm(goal_n5[:, :2], axis=1), the euclidean distance from the origin
to the goal position (spline_3rd_order.py line 18).  The same value is
used for both factors. -/
def heuristicFactor (g : Goal5) : ℝ := Real.sqrt (g.xg ^ 2 + g.yg ^ 2)

/-- Spline3rdOrder.fit (spline_3rd_order.py lines 22-43), one batch row,
with explicit shaping factors f1, f2.  No validation of the factors is
performed by the source; the divisions v0 / f1 and vf / f2 are part of the
coefficient expressions unconditionally. -/
def fitSpline (s : Start5) (g : Goal5) (f1 f2 : ℝ) : SplineCoeffs :=
  let d1 := s.x0
  let c1 := f1 * Real.cos s.t0
  let a1 := f2 * Real.cos g.tg - 2 * g.xg + c1 + 2 * d1
  let b1 := 3 * g.xg - f2 * Real.cos g.tg - 2 * c1 - 3 * d1
  let d2 := s.y0
  let c2 := f1 * Real.sin s.t0
  let a2 := f2 * Real.sin g.tg - 2 * g.yg + c2 + 2 * d2
  let b2 := 3 * g.yg - f2 * Real.sin g.tg - 2 * c2 - 3 * d2
  let c3 := s.v0 / f1
  let a3 := g.vg / f2 + c3 - 2
  let b3 := 1 - c3 - a3
  ⟨a1, b1, c1, d1, a2, b2, c2, d2, a3, b3, c3⟩

/-- fit with factors_n2 = None: both factors default to the heuristic
distance-to-goal (spline_3rd_order.py lines 17-19). -/
def fitSplineDefault (s : Start5) (g : Goal5) : SplineCoeffs :=
  fitSpline s g (heuristicFactor g) (heuristicFactor g)

/-- ps = a3*t3 + b3*t2 + c3*ts (_eval_spline line 61), at one normalized time. -/
def psOf (c : SplineCoeffs) (t : ℝ) : ℝ := c.a3 * (t * t * t) + c.b3 * (t * t) + c.c3 * t

/-- xs = a1*p3 + b1*p2 + c1*ps + d1 (_eval_spline line 63). -/
def xsOf (c : SplineCoeffs) (t : ℝ) : ℝ :=
  c.a1 * (psOf c t * psOf c t * psOf c t) + c.b1 * (psOf c t * psOf c t) + c.c1 * psOf c t + c.d1

/-- ys = a2*p3 + b2*p2 + d2 (_eval_spline line 64).  Note: the source omits
the linear term c2*ps from the y cubic. -/
def ysOf (c : SplineCoeffs) (t : ℝ) : ℝ :=
  c.a2 * (psOf c t * psOf c t * psOf c t) + c.b2 * (psOf c t * psOf c t) + c.d2

/-- ps_dot = 3*a3*t2 + 2*b3*ts + c3 (_eval_spline line 66). -/
def psDot (c : SplineCoeffs) (t : ℝ) : ℝ := 3 * c.a3 * (t * t) + 2 * c.b3 * t + c.c3

/-- xs_dot = 3*a1*p2 + 2*b1*ps + c1 (_eval_spline line 67). -/
def xsDot (c : SplineCoeffs) (t : ℝ) : ℝ :=
  3 * c.a1 * (psOf c t * psOf c t) + 2 * c.b1 * psOf c t + c.c1

/-- ys_dot = 3*a2*p2 + 2*b2*ps + c2 (_eval_spline line 68). -/
def ysDot (c : SplineCoeffs) (t : ℝ) : ℝ :=
  3 * c.a2 * (psOf c t * psOf c t) + 2 * c.b2 * psOf c t + c.c2

/-- ps_ddot = 6*a3*ts + 2*b3 (_eval_spline line 70). -/
def psDdot (c : SplineCoeffs) (t : ℝ) : ℝ := 6 * c.a3 * t + 2 * c.b3

/-- xs_ddot = 6*a1*ps + 2*b1 (_eval_spline line 71). -/
def xsDdot (c : SplineCoeffs) (t : ℝ) : ℝ := 6 * c.a1 * psOf c t + 2 * c.b1

/-- ys_ddot = 6*a2*ps + 2*b2 (_eval_spline line 72). -/
def ysDdot (c : SplineCoeffs) (t : ℝ) : ℝ := 6 * c.a2 * psOf c t + 2 * c.b2

/-- speed_ps = sqrt(xs_dot**2 + ys_dot**2) (_eval_spline line 79). -/
def speedPs (c : SplineCoeffs) (t : ℝ) : ℝ := Real.sqrt (xsDot c t ^ 2 + ysDot c t ^ 2)

/-- speed = speed_ps * ps_dot (_eval_spline line 80), the true speed. -/
def speedOf (c : SplineCoeffs) (t : ℝ) : ℝ := speedPs c t * psDot c t

/-- angular_speed = (num_l + num_r) / square(speed) (_eval_spline lines 82-87),
where num_l = (ys_ddot*ps_dot^2 + ys_dot*ps_ddot) * (xs_dot*ps_dot) and
num_r = (xs_ddot*ps_dot^2 + xs_dot*ps_ddot) * (ys_dot*ps_dot).  Note: the
source combines the two chain-rule terms with +, not -. -/
def angularSpeedOf (c : SplineCoeffs) (t : ℝ) : ℝ :=
  ((ysDdot c t * psDot c t ^ 2 + ysDot c t * psDdot c t) * (xsDot c t * psDot c t) +
   (xsDdot c t * psDot c t ^ 2 + xsDot c t * psDdot c t) * (ysDot c t * psDot c t)) /
    speedOf c t ^ 2

/- Concrete spline inputs used to evaluate the code on failing inputs. -/

/-- Concrete start row (0, 0, pi/2, 1). -/
def c1Start : Start5 := ⟨0, 0, Real.pi / 2, 1⟩

/-- Concrete goal row (5, 5, 0, 1). -/
def c1Goal : Goal5 := ⟨5, 5, 0, 1⟩

/-- The coefficients fit produces for c1Start, c1Goal with factors (1, 1). -/
def c1Coeffs : SplineCoeffs := fitSpline c1Start c1Goal 1 1

/-- Concrete start row (0, 0, 0, 1). -/
def c2Start : Start5 := ⟨0, 0, 0, 1⟩

/-- Concrete goal row (0, 5, pi/2, 1). -/
def c2Goal : Goal5 := ⟨0, 5, Real.pi / 2, 1⟩

/-- The coefficients fit produces for c2Start, c2Goal with factors (5, 5). -/
def c2Coeffs : SplineCoeffs := fitSpline c2Start c2Goal 5 5

/-- Concrete degenerate goal at the origin (0, 0, 0, 1). -/
def c10Goal : Goal5 := ⟨0, 0, 0, 1⟩

/- ===== Trajectory container and Dubins dynamics (systems/) ===== -/

/-- Modelled from the spec: the Trajectory record of section 3, a batched
record of position, heading, speed, angular speed and accelerations over
time, indexed by batch and step.  The Trajectory class itself is not under
src; only its channel accessors and constructor calls appear there. -/
structure Traj where
  dt : ℝ
  n : ℕ
  k : ℕ
  position : ℕ → ℕ → Fin 2 → ℝ
  heading : ℕ → ℕ → ℝ
  speed : ℕ → ℕ → ℝ
  angular_speed : ℕ → ℕ → ℝ
  acceleration : ℕ → ℕ → ℝ
  angular_acceleration : ℕ → ℕ → ℝ

/-- trajectory.position_and_heading_nk3(): the position columns with the
heading column appended, giving the state tensor x_nk3. -/
def Traj.positionAndHeading (T : Traj) : StateTensor :=
  fun i j => stack3 (T.position i j 0) (T.position i j 1) (T.heading i j)

/-- trajectory.speed_and_angular_speed(): the speed and angular-speed
columns, giving the control tensor u_nk2. -/
def Traj.speedAndAngularSpeed (T : Traj) : CtrlTensor :=
  fun i j => stack2 (T.speed i j) (T.angular_speed i j)

/-- parse_trajectory (dubins_v1.py line 68, dubins_v2.py line 94): returns
the state and control tensors read from the trajectory channels. -/
def parseTrajectory (T : Traj) : StateTensor × CtrlTensor :=
  (T.positionAndHeading, T.speedAndAngularSpeed)

/-- Modelled from the spec: the Trajectory constructor checks the section 3
shape invariant that all per-step arrays share the same (n, k) shape; the
control channels supplied with ku steps against k state steps are a
precondition violation unless ku = k.  Accelerations are zero-filled when
absent, as in section 3. -/
def mkTrajectory (dt : ℝ) (n k : ℕ) (pos : ℕ → ℕ → Fin 2 → ℝ) (head : ℕ → ℕ → ℝ)
    (ku : ℕ) (speed angular : ℕ → ℕ → ℝ) : Option Traj :=
  if ku = k then
    some ⟨dt, n, k, pos, head, speed, angular, fun _ _ => 0, fun _ _ => 0⟩
  else
    none

/-- Dubins_v1.simulate (dubins_v1.py lines 15-31): slices the x, y, theta
and v, w channels, applies the euler step per channel and restacks. -/
def simulateV1 (dt : ℝ) (x : StateTensor) (u : CtrlTensor) : StateTensor :=
  fun i j =>
    stack3 (x i j 0 + u i j 0 * Real.cos (x i j 2) * dt)
      (x i j 1 + u i j 0 * Real.sin (x i j 2) * dt)
      (x i j 2 + u i j 1 * dt)

/-- Dubins_v1.jac_x (dubins_v1.py lines 33-49): the columns
(1,0,0), (0,1,0), (-v sin t dt, v cos t dt, 1) stacked along the last axis,
with v and t read through parse_trajectory. -/
def jacXV1 (dt : ℝ) (T : Traj) : ℕ → ℕ → Fin 3 → Fin 3 → ℝ :=
  fun i j r c =>
    stack3 (stack3 (1 : ℝ) 0 0) (stack3 (0 : ℝ) 1 0)
      (stack3 (-((parseTrajectory T).2 i j 0) * Real.sin ((parseTrajectory T).1 i j 2) * dt)
        ((parseTrajectory T).2 i j 0 * Real.cos ((parseTrajectory T).1 i j 2) * dt) 1)
      c r

/-- Dubins_v1.jac_u (dubins_v1.py lines 51-66): the columns
(cos t dt, sin t dt, 0) and (0, 0, 1 * dt) stacked along the last axis. -/
def jacUV1 (dt : ℝ) (T : Traj) : ℕ → ℕ → Fin 3 → Fin 2 → ℝ :=
  fun i j r c =>
    stack2 (stack3 (Real.cos ((parseTrajectory T).1 i j 2) * dt)
        (Real.sin ((parseTrajectory T).1 i j 2) * dt) 0)
      (stack3 (0 : ℝ) 0 (1 * dt))
      c r

/-- The Dubins_v2 model parameters: dt and the v and w saturation bounds
(dubins_v2.py line 15, defaults v_bounds = [0.0, 0.6],
w_bounds = [-1.1, 1.1]). -/
structure DubinsV2 where
  dt : ℝ
  v_min : ℝ
  v_max : ℝ
  w_min : ℝ
  w_max : ℝ

/-- tf.clip_by_value(t, lo, hi) = min(max(t, lo), hi). -/
def clipByValue (t lo hi : ℝ) : ℝ := min (max t lo) hi

/-- Dubins_v2.s1 (dubins_v2.py lines 68-71): clip the commanded linear
velocity into v_bounds. -/
def DubinsV2.s1 (m : DubinsV2) (v : ℝ) : ℝ := clipByValue v m.v_min m.v_max

/-- Dubins_v2.s2 (dubins_v2.py lines 73-76): clip the commanded angular
velocity into w_bounds. -/
def DubinsV2.s2 (m : DubinsV2) (w : ℝ) : ℝ := clipByValue w m.w_min m.w_max

/-- Dubins_v2.s1_prime (dubins_v2.py lines 78-84): the cast of
not(v < v_bounds[0] or v > v_bounds[1]), so 1 unless the input is strictly
below the lower bound or strictly above the upper bound. -/
def DubinsV2.s1Prime (m : DubinsV2) (v : ℝ) : ℝ :=
  if v < m.v_min ∨ m.v_max < v then 0 else 1

/-- Dubins_v2.s2_prime (dubins_v2.py lines 86-92): same indicator for the
angular velocity bounds. -/
def DubinsV2.s2Prime (m : DubinsV2) (w : ℝ) : ℝ :=
  if w < m.w_min ∨ m.w_max < w then 0 else 1

/-- Dubins_v2.simulate (dubins_v2.py lines 21-27): the euler step applied
to the saturated controls, written as x + dt * delta_x as in the source. -/
def DubinsV2.simulate (m : DubinsV2) (x : StateTensor) (u : CtrlTensor) : StateTensor :=
  fun i j d =>
    x i j d +
      m.dt *
        stack3 (m.s1 (u i j 0) * Real.cos (x i j 2)) (m.s1 (u i j 0) * Real.sin (x i j 2))
          (m.s2 (u i j 1)) d

/-- Dubins_v2.jac_u (dubins_v2.py lines 47-66): the columns of jac_u of the
unconstrained model scaled by s1_prime and s2_prime at the raw commanded
controls read from the trajectory. -/
def DubinsV2.jacU (m : DubinsV2) (T : Traj) : ℕ → ℕ → Fin 3 → Fin 2 → ℝ :=
  fun i j r c =>
    stack2 (stack3 (m.s1Prime ((parseTrajectory T).2 i j 0) * Real.cos ((parseTrajectory T).1 i j 2) * m.dt)
        (m.s1Prime ((parseTrajectory T).2 i j 0) * Real.sin ((parseTrajectory T).1 i j 2) * m.dt) 0)
      (stack3 (0 : ℝ) 0 (m.s2Prime ((parseTrajectory T).2 i j 1) * m.dt))
      c r

/-- The pad policies of assemble_trajectory: none, zero-pad-last and
repeat-last (dubins_v2.py lines 100-120). -/
inductive PadMode where
  | noPad : PadMode
  | zeroPad : PadMode
  | repeatLast : PadMode

/-- The common tail of Dubins_v1.assemble_trajectory (dubins_v1.py lines
85-89): slice position, heading, speed and angular speed from the state and
(possibly padded) control tensors and construct the Trajectory, without any
clipping. -/
def assembleFinishV1 (dt : ℝ) (n k : ℕ) (x : StateTensor) (ku : ℕ) (u : CtrlTensor) :
    Option Traj :=
  mkTrajectory dt n k (fun i j d => x i j d.castSucc) (fun i j => x i j 2) ku
    (fun i j => u i j 0) (fun i j => u i j 1)

/-- Dubins_v1.assemble_trajectory (dubins_v1.py lines 72-89): only a boolean
zero_pad_u is supported.  With zero_pad_u, a control tensor of ku = k - 1
steps gets a zero control appended; otherwise the assert requires ku = k.
Without zero_pad_u the controls are passed through unchanged. -/
def assembleTrajectoryV1 (dt : ℝ) (n k : ℕ) (x : StateTensor) (ku : ℕ) (u : CtrlTensor)
    (zero_pad_u : Bool) : Option Traj :=
  match zero_pad_u with
  | true =>
    if ku + 1 = k then
      assembleFinishV1 dt n k x (ku + 1) (fun i j d => if j = ku then 0 else u i j d)
    else if ku = k then
      assembleFinishV1 dt n k x ku u
    else
      none
  | false => assembleFinishV1 dt n k x ku u

/-- The common tail of Dubins_v2.assemble_trajectory (dubins_v2.py lines
121-127): slice the channels, clip the stored speed through s1 and the
stored angular speed through s2, then construct the Trajectory. -/
def assembleFinishV2 (m : DubinsV2) (n k : ℕ) (x : StateTensor) (ku : ℕ) (u : CtrlTensor) :
    Option Traj :=
  mkTrajectory m.dt n k (fun i j d => x i j d.castSucc) (fun i j => x i j 2) ku
    (fun i j => m.s1 (u i j 0)) (fun i j => m.s2 (u i j 1))

/-- Dubins_v2.assemble_trajectory (dubins_v2.py lines 100-127).  In pad
mode zero a control tensor of ku = k - 1 steps gets a zero control
appended; in pad mode repeat it gets zeros + u[:, -1:], a copy of the last
control, appended; in both modes any other ku must equal k by the assert.
With no pad mode the controls pass through to the Trajectory constructor. -/
def assembleTrajectoryV2 (m : DubinsV2) (n k : ℕ) (x : StateTensor) (ku : ℕ) (u : CtrlTensor) :
    PadMode → Option Traj
  | PadMode.zeroPad =>
    if ku + 1 = k then
      assembleFinishV2 m n k x (ku + 1) (fun i j d => if j = ku then 0 else u i j d)
    else if ku = k then
      assembleFinishV2 m n k x ku u
    else
      none
  | PadMode.repeatLast =>
    if ku + 1 = k then
      assembleFinishV2 m n k x (ku + 1) (fun i j d => if j = ku then 0 + u i (ku - 1) d else u i j d)
    else if ku = k then
      assembleFinishV2 m n k x ku u
    else
      none
  | PadMode.noPad => assembleFinishV2 m n k x ku u

/- ===== Coordinate-frame transforms (dubins_v2.py lines 143-194) ===== -/

/-- Modelled from the spec: rotate_pos_nk2 from utils.angle_utils, which is
not under src.  Rotation of a 2d position by an angle, as used by the
section 4.3 egocentric and world transforms. -/
def rotatePos (p : Fin 2 → ℝ) (theta : ℝ) : Fin 2 → ℝ :=
  stack2 (p 0 * Real.cos theta - p 1 * Real.sin theta)
    (p 0 * Real.sin theta + p 1 * Real.cos theta)

/-- Modelled from the spec: angle_normalize from utils.angle_utils, which is
not under src.  Sections 4.3 and 8 require wrapping into a canonical range
such as the interval from -pi exclusive to pi inclusive, congruent modulo
2 pi to the input. -/
def angleNormalize (theta : ℝ) : ℝ :=
  theta - 2 * Real.pi * ((⌈(theta - Real.pi) / (2 * Real.pi)⌉ : ℤ) : ℝ)

/-- Dubins_v2.to_egocentric_coordinates (dubins_v2.py lines 143-167):
subtract the reference position, rotate by the negated reference heading,
normalize the heading difference; speed, angular speed and accelerations
pass through unchanged.  The broadcast reference row is the single entry of
the reference state. -/
def toEgocentric (ref : Traj) (T : Traj) : Traj :=
  { dt := T.dt, n := T.n, k := T.k
    position := fun i j =>
      rotatePos (fun d => T.position i j d - ref.position 0 0 d) (-(ref.heading 0 0))
    heading := fun i j => angleNormalize (T.heading i j - ref.heading 0 0)
    speed := T.speed
    angular_speed := T.angular_speed
    acceleration := T.acceleration
    angular_acceleration := T.angular_acceleration }

/-- Dubins_v2.to_world_coordinates (dubins_v2.py lines 169-194): rotate by
the reference heading, add the reference position, normalize the heading
sum; speed, angular speed and accelerations pass through unchanged. -/
def toWorld (ref : Traj) (T : Traj) : Traj :=
  { dt := T.dt, n := T.n, k := T.k
    position := fun i j d =>
      rotatePos (T.position i j) (ref.heading 0 0) d + ref.position 0 0 d
    heading := fun i j => angleNormalize (T.heading i j + ref.heading 0 0)
    speed := T.speed
    angular_speed := T.angular_speed
    acceleration := T.acceleration
    angular_acceleration := T.angular_acceleration }

/- ===== Concrete witnesses data ===== -/

/-- The Dubins_v2 model with dt = 1 and the default source bounds
v_bounds = [0.0, 0.6], w_bounds = [-1.1, 1.1]. -/
def dubinsDefault : DubinsV2 := ⟨1, 0, 6 / 10, -(11 / 10), 11 / 10⟩

/-- A concrete all-zero state tensor. -/
def exX0 : StateTensor := fun _ _ _ => 0

/-- A concrete constant control tensor with both channels one half. -/
def exUhalf : CtrlTensor := fun _ _ _ => 1 / 2

/-- A concrete trajectory: the result of assembling exX0 and exUhalf with
the default saturating model, used to witness claims about assembled
trajectories. -/
def exTraj : Traj :=
  ⟨1, 1, 1, fun i j d => exX0 i j d.castSucc, fun i j => exX0 i j 2,
    fun i j => dubinsDefault.s1 (exUhalf i j 0), fun i j => dubinsDefault.s2 (exUhalf i j 1),
    fun _ _ => 0, fun _ _ => 0⟩

/- ===== theorems ===== -/

theorem stack2_zero {α : Type} (a b : α) : stack2 a b 0 = a := rfl

theorem stack2_one {α : Type} (a b : α) : stack2 a b 1 = b := rfl

theorem stack3_zero {α : Type} (a b c : α) : stack3 a b c 0 = a := rfl

theorem stack3_one {α : Type} (a b c : α) : stack3 a b c 1 = b := rfl

theorem stack3_two {α : Type} (a b c : α) : stack3 a b c 2 = c := rfl

theorem indicator_eq_one_iff (lo hi v : ℝ) :
    (if v < lo ∨ hi < v then (0 : ℝ) else 1) = 1 ↔ lo ≤ v ∧ v ≤ hi := by
  split_ifs with h
  · constructor
    · intro h0
      norm_num at h0
    · intro hin
      exfalso
      rcases h with h | h
      · linarith [hin.1]
      · linarith [hin.2]
  · push_neg at h
    constructor
    · intro _
      exact ⟨h.1, h.2⟩
    · intro _
      rfl

theorem indicator_eq_zero_iff (lo hi v : ℝ) :
    (if v < lo ∨ hi < v then (0 : ℝ) else 1) = 0 ↔ v < lo ∨ hi < v := by
  split_ifs with h
  · simp [h]
  · constructor
    · intro h1
      norm_num at h1
    · intro hc
      exact absurd hc h

theorem clipByValue_cases (v lo hi : ℝ) (h : lo ≤ hi) :
    clipByValue v lo hi = if v < lo then lo else if hi < v then hi else v := by
  unfold clipByValue
  split_ifs with h1 h2
  · rw [max_eq_right h1.le, min_eq_left h]
  · rw [max_eq_left (le_of_not_lt h1), min_eq_right h2.le]
  · rw [max_eq_left (le_of_not_lt h1), min_eq_left (le_of_not_lt h2)]

theorem clipByValue_of_mem (v lo hi : ℝ) (h1 : lo ≤ v) (h2 : v ≤ hi) :
    clipByValue v lo hi = v := by
  unfold clipByValue
  rw [max_eq_left h1, min_eq_left h2]

theorem ext2 {α : Type} {f g : Fin 2 → α} (h0 : f 0 = g 0) (h1 : f 1 = g 1) : f = g := by
  funext d
  fin_cases d
  · exact h0
  · exact h1

theorem ext3 {α : Type} {f g : Fin 3 → α} (h0 : f 0 = g 0) (h1 : f 1 = g 1)
    (h2 : f 2 = g 2) : f = g := by
  funext d
  fin_cases d
  · exact h0
  · exact h1
  · exact h2

theorem clipByValue_bounds (v lo hi : ℝ) (h : lo ≤ hi) :
    lo ≤ clipByValue v lo hi ∧ clipByValue v lo hi ≤ hi := by
  unfold clipByValue
  exact ⟨le_min (le_max_right v lo) h, min_le_right _ _⟩

theorem sqrt_twentyfive : Real.sqrt 25 = 5 := by
  rw [show (25 : ℝ) = 5 ^ 2 by norm_num]
  exact Real.sqrt_sq (by norm_num)

/-- C1.  The spec claims evaluation computes y by the full cubic
y(p) = a2*p^3 + b2*p^2 + c2*p + d2, so that tau = 1 (p = 1) reproduces the
goal position.  The code (_eval_spline line 64) omits the c2*p term: for
start (0, 0, pi/2, 1), goal (5, 5, 0, 1), factors (1, 1) the evaluation at
tau = 1 has p = 1 and yields x = 5 = xg but y = 4, while the full cubic
a2 + b2 + c2 + d2 equals 5 = yg; at tau = 0 the start position is still
reproduced.  This evaluates the code at the failing input. -/
theorem C1_spline_goal_y_not_reproduced :
    psOf c1Coeffs 0 = 0 ∧ xsOf c1Coeffs 0 = 0 ∧ ysOf c1Coeffs 0 = 0 ∧
    psOf c1Coeffs 1 = 1 ∧ xsOf c1Coeffs 1 = 5 ∧ ysOf c1Coeffs 1 = 4 ∧
    c1Coeffs.a2 + c1Coeffs.b2 + c1Coeffs.c2 + c1Coeffs.d2 = 5 := by
  have hc : Real.cos (Real.pi / 2) = 0 := Real.cos_pi_div_two
  have hs : Real.sin (Real.pi / 2) = 1 := Real.sin_pi_div_two
  simp only [c1Coeffs, fitSpline, c1Start, c1Goal, psOf, xsOf, ysOf, hc, hs,
    Real.cos_zero, Real.sin_zero]
  norm_num

/-- C2.  The spec claims the angular speed is the curvature formula
(y'' * x' - x'' * y') / speed^2 with chain-rule terms, i.e. the numerator is
the DIFFERENCE num_l - num_r of the two chain-rule products.  The code
(_eval_spline line 87) computes (num_l + num_r) / speed^2.  For the fitted
spline c2Coeffs at tau = 1 the true speed is 1 (nonzero), the code yields
2/5, while the difference formula of the claim yields -2/5. -/
theorem C2_angular_speed_sign :
    speedOf c2Coeffs 1 = 1 ∧
    angularSpeedOf c2Coeffs 1 = 2 / 5 ∧
    ((ysDdot c2Coeffs 1 * psDot c2Coeffs 1 ^ 2 + ysDot c2Coeffs 1 * psDdot c2Coeffs 1) *
        (xsDot c2Coeffs 1 * psDot c2Coeffs 1) -
      (xsDdot c2Coeffs 1 * psDot c2Coeffs 1 ^ 2 + xsDot c2Coeffs 1 * psDdot c2Coeffs 1) *
        (ysDot c2Coeffs 1 * psDot c2Coeffs 1)) /
      speedOf c2Coeffs 1 ^ 2 = -(2 / 5) := by
  have hc : Real.cos (Real.pi / 2) = 0 := Real.cos_pi_div_two
  have hs : Real.sin (Real.pi / 2) = 1 := Real.sin_pi_div_two
  have hp : psOf c2Coeffs 1 = 1 := by
    simp only [c2Coeffs, fitSpline, c2Start, c2Goal, psOf, hc, hs,
      Real.cos_zero, Real.sin_zero]
    norm_num
  have hxd : xsDot c2Coeffs 1 = 0 := by
    simp only [xsDot, hp]
    simp only [c2Coeffs, fitSpline, c2Start, c2Goal, hc, hs,
      Real.cos_zero, Real.sin_zero]
    norm_num
  have hyd : ysDot c2Coeffs 1 = 5 := by
    simp only [ysDot, hp]
    simp only [c2Coeffs, fitSpline, c2Start, c2Goal, hc, hs,
      Real.cos_zero, Real.sin_zero]
    norm_num
  have hpd : psDot c2Coeffs 1 = 1 / 5 := by
    simp only [psDot, c2Coeffs, fitSpline, c2Start, c2Goal, hc, hs,
      Real.cos_zero, Real.sin_zero]
    norm_num
  have hpdd : psDdot c2Coeffs 1 = -(24 / 5) := by
    simp only [psDdot, c2Coeffs, fitSpline, c2Start, c2Goal, hc, hs,
      Real.cos_zero, Real.sin_zero]
    norm_num
  have hxdd : xsDdot c2Coeffs 1 = 10 := by
    simp only [xsDdot, hp]
    simp only [c2Coeffs, fitSpline, c2Start, c2Goal, hc, hs,
      Real.cos_zero, Real.sin_zero]
    norm_num
  have hydd : ysDdot c2Coeffs 1 = -10 := by
    simp only [ysDdot, hp]
    simp only [c2Coeffs, fitSpline, c2Start, c2Goal, hc, hs,
      Real.cos_zero, Real.sin_zero]
    norm_num
  have hsp : speedOf c2Coeffs 1 = 1 := by
    simp only [speedOf, speedPs, hxd, hyd, hpd]
    rw [show (0 : ℝ) ^ 2 + 5 ^ 2 = 25 by norm_num, sqrt_twentyfive]
    norm_num
  refine ⟨hsp, ?_, ?_⟩
  · simp only [angularSpeedOf, hxd, hyd, hpd, hpdd, hxdd, hydd, hsp]
    norm_num
  · simp only [hxd, hyd, hpd, hpdd, hxdd, hydd, hsp]
    norm_num

/-- C3 counterexample.  The claim states the clip derivatives return 0 when
the input equals bound_min or bound_max exactly.  On the default bounds
model the source returns 1 at both boundaries of both channels, because the
zero indices are the strict comparisons input < bound_min and
input > bound_max. -/
theorem C3_boundary_counterexample :
    dubinsDefault.s1Prime dubinsDefault.v_min = 1 ∧
    dubinsDefault.s1Prime dubinsDefault.v_max = 1 ∧
    dubinsDefault.s2Prime dubinsDefault.w_min = 1 ∧
    dubinsDefault.s2Prime dubinsDefault.w_max = 1 := by
  norm_num [DubinsV2.s1Prime, DubinsV2.s2Prime, dubinsDefault]

/-- C3 amended.  For every input, s1_prime and s2_prime return 1 if and
only if the input lies in the CLOSED interval between the bounds, and 0 if
and only if the input is strictly below the lower bound or strictly above
the upper bound; in particular they return 1, not 0, at the boundaries. -/
theorem C3_clip_derivative_indicator (m : DubinsV2) (v w : ℝ) :
    (m.s1Prime v = 1 ↔ m.v_min ≤ v ∧ v ≤ m.v_max) ∧
    (m.s1Prime v = 0 ↔ v < m.v_min ∨ m.v_max < v) ∧
    (m.s2Prime w = 1 ↔ m.w_min ≤ w ∧ w ≤ m.w_max) ∧
    (m.s2Prime w = 0 ↔ w < m.w_min ∨ m.w_max < w) :=
  ⟨indicator_eq_one_iff _ _ _, indicator_eq_zero_iff _ _ _,
   indicator_eq_one_iff _ _ _, indicator_eq_zero_iff _ _ _⟩

/-- C4.  The saturating simulate equals the unconstrained simulate applied
to the clipped controls, where the clip is exactly the commanded value
inside the bounds and exactly the violated bound outside; with all
commanded components inside the bounds the two simulates coincide on the
same inputs, and each jac_u column of the saturating model is exactly zero
when the corresponding raw commanded control read from the trajectory is
strictly outside its bounds and equals the unconstrained jac_u column
otherwise. -/
theorem C4_saturation (m : DubinsV2) (hv : m.v_min ≤ m.v_max) (hw : m.w_min ≤ m.w_max)
    (x : StateTensor) (u : CtrlTensor) (T : Traj) (i j : ℕ) :
    (m.s1 (u i j 0) =
      if u i j 0 < m.v_min then m.v_min
      else if m.v_max < u i j 0 then m.v_max else u i j 0) ∧
    (m.s2 (u i j 1) =
      if u i j 1 < m.w_min then m.w_min
      else if m.w_max < u i j 1 then m.w_max else u i j 1) ∧
    m.simulate x u i j =
      simulateV1 m.dt x (fun a b => stack2 (m.s1 (u a b 0)) (m.s2 (u a b 1))) i j ∧
    ((m.v_min ≤ u i j 0 ∧ u i j 0 ≤ m.v_max ∧ m.w_min ≤ u i j 1 ∧ u i j 1 ≤ m.w_max) →
      m.simulate x u i j = simulateV1 m.dt x u i j) ∧
    (∀ r : Fin 3, m.jacU T i j r 0 =
      if T.speed i j < m.v_min ∨ m.v_max < T.speed i j then 0
      else jacUV1 m.dt T i j r 0) ∧
    (∀ r : Fin 3, m.jacU T i j r 1 =
      if T.angular_speed i j < m.w_min ∨ m.w_max < T.angular_speed i j then 0
      else jacUV1 m.dt T i j r 1) := by
  refine ⟨clipByValue_cases _ _ _ hv, clipByValue_cases _ _ _ hw, ?_, ?_, ?_, ?_⟩
  · refine ext3 ?_ ?_ ?_ <;>
      simp only [DubinsV2.simulate, simulateV1, stack2, stack3] <;> ring
  · intro hin
    have h1 : m.s1 (u i j 0) = u i j 0 := clipByValue_of_mem _ _ _ hin.1 hin.2.1
    have h2 : m.s2 (u i j 1) = u i j 1 := clipByValue_of_mem _ _ _ hin.2.2.1 hin.2.2.2
    refine ext3 ?_ ?_ ?_ <;>
      simp only [DubinsV2.simulate, simulateV1, h1, h2, stack2, stack3] <;> ring
  · intro r
    fin_cases r <;>
      simp only [DubinsV2.jacU, jacUV1, DubinsV2.s1Prime, parseTrajectory,
        Traj.speedAndAngularSpeed, Traj.positionAndHeading, stack2, stack3] <;>
      split_ifs <;> ring
  · intro r
    fin_cases r <;>
      simp only [DubinsV2.jacU, jacUV1, DubinsV2.s2Prime, parseTrajectory,
        Traj.speedAndAngularSpeed, Traj.positionAndHeading, stack2, stack3] <;>
      split_ifs <;> ring

/-- C5.  The unconstrained jac_x has columns (1,0,0), (0,1,0) and
(-v sin t dt, v cos t dt, 1), and jac_u has columns (cos t dt, sin t dt, 0)
and (0, 0, dt), where t is the heading channel and v the speed channel of
the supplied trajectory, read through parse_trajectory exactly as simulate
would read them. -/
theorem C5_v1_jacobian_columns (dt : ℝ) (T : Traj) (i j : ℕ) :
    (∀ r : Fin 3, jacXV1 dt T i j r 0 = stack3 (1 : ℝ) 0 0 r) ∧
    (∀ r : Fin 3, jacXV1 dt T i j r 1 = stack3 (0 : ℝ) 1 0 r) ∧
    (∀ r : Fin 3, jacXV1 dt T i j r 2 =
      stack3 (-(T.speed i j) * Real.sin (T.heading i j) * dt)
        (T.speed i j * Real.cos (T.heading i j) * dt) 1 r) ∧
    (∀ r : Fin 3, jacUV1 dt T i j r 0 =
      stack3 (Real.cos (T.heading i j) * dt) (Real.sin (T.heading i j) * dt) 0 r) ∧
    (∀ r : Fin 3, jacUV1 dt T i j r 1 = stack3 (0 : ℝ) 0 dt r) ∧
    (parseTrajectory T).1 i j 2 = T.heading i j ∧
    (parseTrajectory T).2 i j 0 = T.speed i j ∧
    (parseTrajectory T).2 i j 1 = T.angular_speed i j := by
  refine ⟨?_, ?_, ?_, ?_, ?_, rfl, rfl, rfl⟩ <;>
    intro r <;> fin_cases r <;>
      simp only [jacXV1, jacUV1, parseTrajectory, Traj.positionAndHeading,
        Traj.speedAndAngularSpeed, stack2, stack3] <;> ring

/-- C6.  For every batch element and step, the unconstrained simulate
returns exactly (x + v cos t dt, y + v sin t dt, t + w dt), and the
saturating simulate satisfies the same equations with v and w replaced by
their clipped values s1(v) and s2(w); both are pure functions of the
supplied tensors. -/
theorem C6_simulate_equations (dt : ℝ) (m : DubinsV2) (x : StateTensor) (u : CtrlTensor)
    (i j : ℕ) :
    simulateV1 dt x u i j =
      stack3 (x i j 0 + u i j 0 * Real.cos (x i j 2) * dt)
        (x i j 1 + u i j 0 * Real.sin (x i j 2) * dt)
        (x i j 2 + u i j 1 * dt) ∧
    m.simulate x u i j =
      stack3 (x i j 0 + m.s1 (u i j 0) * Real.cos (x i j 2) * m.dt)
        (x i j 1 + m.s1 (u i j 0) * Real.sin (x i j 2) * m.dt)
        (x i j 2 + m.s2 (u i j 1) * m.dt) ∧
    m.s1 (u i j 0) = clipByValue (u i j 0) m.v_min m.v_max ∧
    m.s2 (u i j 1) = clipByValue (u i j 1) m.w_min m.w_max := by
  refine ⟨rfl, ?_, rfl, rfl⟩
  refine ext3 ?_ ?_ ?_ <;>
    simp only [DubinsV2.simulate, stack2, stack3] <;> ring

theorem angleNormalize_bounds (x : ℝ) :
    -Real.pi < angleNormalize x ∧ angleNormalize x ≤ Real.pi := by
  have h2 : (0 : ℝ) < 2 * Real.pi := by positivity
  have hle : (x - Real.pi) / (2 * Real.pi) ≤ ((⌈(x - Real.pi) / (2 * Real.pi)⌉ : ℤ) : ℝ) :=
    Int.le_ceil _
  have hlt : ((⌈(x - Real.pi) / (2 * Real.pi)⌉ : ℤ) : ℝ) < (x - Real.pi) / (2 * Real.pi) + 1 := by
    exact_mod_cast Int.ceil_lt_add_one ((x - Real.pi) / (2 * Real.pi))
  have hmul : (x - Real.pi) / (2 * Real.pi) * (2 * Real.pi) = x - Real.pi :=
    div_mul_cancel₀ _ (ne_of_gt h2)
  have hup : x - Real.pi ≤ ((⌈(x - Real.pi) / (2 * Real.pi)⌉ : ℤ) : ℝ) * (2 * Real.pi) := by
    have h := mul_le_mul_of_nonneg_right hle h2.le
    rwa [hmul] at h
  have hdn : ((⌈(x - Real.pi) / (2 * Real.pi)⌉ : ℤ) : ℝ) * (2 * Real.pi) < x - Real.pi + 2 * Real.pi := by
    have h := mul_lt_mul_of_pos_right hlt h2
    rwa [add_mul, one_mul, hmul] at h
  unfold angleNormalize
  constructor <;> nlinarith [hup, hdn]

/-- C7.  For every reference state and trajectory, to_world after
to_egocentric with the same reference restores the positions exactly,
restores every heading up to congruence modulo 2 pi and lands it in the
canonical range from -pi exclusive to pi inclusive, and passes speed,
angular speed, acceleration and angular acceleration through completely
unchanged. -/
theorem C7_roundtrip (ref T : Traj) (i j : ℕ) :
    (toWorld ref (toEgocentric ref T)).position i j = T.position i j ∧
    (∃ mz : ℤ, (toWorld ref (toEgocentric ref T)).heading i j =
      T.heading i j - 2 * Real.pi * mz) ∧
    (-Real.pi < (toWorld ref (toEgocentric ref T)).heading i j ∧
      (toWorld ref (toEgocentric ref T)).heading i j ≤ Real.pi) ∧
    (toWorld ref (toEgocentric ref T)).speed = T.speed ∧
    (toWorld ref (toEgocentric ref T)).angular_speed = T.angular_speed ∧
    (toWorld ref (toEgocentric ref T)).acceleration = T.acceleration ∧
    (toWorld ref (toEgocentric ref T)).angular_acceleration = T.angular_acceleration := by
  refine ⟨?_, ?_, ?_, rfl, rfl, rfl, rfl⟩
  · refine ext2 ?_ ?_
    · simp only [toWorld, toEgocentric, rotatePos, stack2]
      rw [Real.cos_neg, Real.sin_neg]
      linear_combination (T.position i j 0 - ref.position 0 0 0) *
        Real.sin_sq_add_cos_sq (ref.heading 0 0)
    · simp only [toWorld, toEgocentric, rotatePos, stack2]
      rw [Real.cos_neg, Real.sin_neg]
      linear_combination (T.position i j 1 - ref.position 0 0 1) *
        Real.sin_sq_add_cos_sq (ref.heading 0 0)
  · show ∃ mz : ℤ, angleNormalize (angleNormalize (T.heading i j - ref.heading 0 0) +
      ref.heading 0 0) = T.heading i j - 2 * Real.pi * mz
    refine ⟨⌈(T.heading i j - ref.heading 0 0 - Real.pi) / (2 * Real.pi)⌉ +
      ⌈(angleNormalize (T.heading i j - ref.heading 0 0) + ref.heading 0 0 - Real.pi) /
        (2 * Real.pi)⌉, ?_⟩
    unfold angleNormalize
    push_cast
    ring
  · exact angleNormalize_bounds _

/-- C8 counterexample.  The claim states all three pad policies are
accepted by both dynamics variants.  The unconstrained variant only takes a
boolean zero_pad_u: on a control batch one step shorter than the states it
can only zero-pad (final stored control 0) or fail the Trajectory shape
precondition, while the saturating variant under repeat-last stores the
last commanded control (here one half) at the final step.  No argument of
the unconstrained assemble_trajectory realizes repeat-last. -/
theorem C8_counterexample :
    Option.map (fun T => (T.speed 0 1, T.angular_speed 0 1))
      (assembleTrajectoryV1 1 1 2 exX0 1 exUhalf true) = some ((0 : ℝ), (0 : ℝ)) ∧
    assembleTrajectoryV1 1 1 2 exX0 1 exUhalf false = none ∧
    Option.map (fun T => (T.speed 0 1, T.angular_speed 0 1))
      (assembleTrajectoryV2 dubinsDefault 1 2 exX0 1 exUhalf PadMode.repeatLast) =
      some ((1 / 2 : ℝ), (1 / 2 : ℝ)) := by
  refine ⟨?_, ?_, ?_⟩
  · simp only [assembleTrajectoryV1, assembleFinishV1, mkTrajectory]
    norm_num
  · simp only [assembleTrajectoryV1, assembleFinishV1, mkTrajectory]
    norm_num
  · simp only [assembleTrajectoryV2, assembleFinishV2, mkTrajectory, DubinsV2.s1,
      DubinsV2.s2, clipByValue, dubinsDefault, exUhalf]
    norm_num [min_def, max_def]

/-- C8 amended.  Zero-pad on a control batch of ku = k - 1 steps stores a
final control of exactly zero (for the saturating variant under bounds
containing zero); repeat-last (saturating variant only) stores a final
control identical to the stored second-to-last one; a control length that
is neither k nor k - 1 under a pad policy fails the precondition; the
unconstrained variant accepts only the none and zero-pad policies through
its boolean flag. -/
theorem C8_pad_policy_semantics (dt : ℝ) (m : DubinsV2) (n k ku kb : ℕ)
    (x : StateTensor) (u : CtrlTensor) (i : ℕ)
    (hk : ku + 1 = k) (hku : 1 ≤ ku)
    (hv0 : m.v_min ≤ 0) (hv0m : (0 : ℝ) ≤ m.v_max)
    (hw0 : m.w_min ≤ 0) (hw0m : (0 : ℝ) ≤ m.w_max)
    (hb1 : kb + 1 ≠ k) (hb2 : kb ≠ k) :
    Option.map (fun T => (T.speed i ku, T.angular_speed i ku))
      (assembleTrajectoryV1 dt n k x ku u true) = some ((0 : ℝ), (0 : ℝ)) ∧
    Option.map (fun T => (T.speed i ku, T.angular_speed i ku))
      (assembleTrajectoryV2 m n k x ku u PadMode.zeroPad) = some ((0 : ℝ), (0 : ℝ)) ∧
    Option.map (fun T => (T.speed i ku, T.angular_speed i ku))
      (assembleTrajectoryV2 m n k x ku u PadMode.repeatLast) =
      Option.map (fun T => (T.speed i (ku - 1), T.angular_speed i (ku - 1)))
        (assembleTrajectoryV2 m n k x ku u PadMode.repeatLast) ∧
    assembleTrajectoryV1 dt n k x kb u true = none ∧
    assembleTrajectoryV2 m n k x kb u PadMode.zeroPad = none ∧
    assembleTrajectoryV2 m n k x kb u PadMode.repeatLast = none := by
  have hpos : 0 < ku := hku
  have hne : ku - 1 ≠ ku := Nat.ne_of_lt (Nat.sub_lt hpos Nat.one_pos)
  have hs0 : m.s1 0 = 0 := clipByValue_of_mem _ _ _ hv0 hv0m
  have hw0' : m.s2 0 = 0 := clipByValue_of_mem _ _ _ hw0 hw0m
  refine ⟨?_, ?_, ?_, ?_, ?_, ?_⟩
  · simp only [assembleTrajectoryV1, assembleFinishV1, mkTrajectory, if_pos hk]
    simp
  · simp only [assembleTrajectoryV2, assembleFinishV2, mkTrajectory, if_pos hk]
    simp [hs0, hw0']
  · simp only [assembleTrajectoryV2, assembleFinishV2, mkTrajectory, if_pos hk]
    simp [if_neg hne]
  · simp only [assembleTrajectoryV1, assembleFinishV1, mkTrajectory, if_neg hb1, if_neg hb2]
  · simp only [assembleTrajectoryV2, assembleFinishV2, mkTrajectory, if_neg hb1, if_neg hb2]
  · simp only [assembleTrajectoryV2, assembleFinishV2, mkTrajectory, if_neg hb1, if_neg hb2]

/-- C8 witness: the amended pad-policy semantics at the concrete instance
dt = 1, defaults bounds, n = 1, k = 2, ku = 1, kb = 5. -/
theorem C8_pad_policy_semantics_witness :
    ((1 : ℕ) + 1 = 2 ∧ (1 : ℕ) ≤ 1 ∧ dubinsDefault.v_min ≤ 0 ∧ (0 : ℝ) ≤ dubinsDefault.v_max ∧
      dubinsDefault.w_min ≤ 0 ∧ (0 : ℝ) ≤ dubinsDefault.w_max ∧
      (5 : ℕ) + 1 ≠ 2 ∧ (5 : ℕ) ≠ 2) ∧
    Option.map (fun T => (T.speed 0 1, T.angular_speed 0 1))
      (assembleTrajectoryV1 1 1 2 exX0 1 exUhalf true) = some ((0 : ℝ), (0 : ℝ)) :=
  ⟨⟨rfl, le_refl 1, by norm_num [dubinsDefault], by norm_num [dubinsDefault],
    by norm_num [dubinsDefault], by norm_num [dubinsDefault], by norm_num, by norm_num⟩,
   (C8_pad_policy_semantics 1 dubinsDefault 1 2 1 5 exX0 exUhalf 0 rfl (le_refl 1)
      (by norm_num [dubinsDefault]) (by norm_num [dubinsDefault]) (by norm_num [dubinsDefault])
      (by norm_num [dubinsDefault]) (by norm_num) (by norm_num)).1⟩

/-- C9.  Every trajectory returned by the saturating assemble_trajectory,
under any pad policy and any commanded controls, has its stored speed in
the closed interval of the linear velocity bounds and its stored angular
speed in the closed interval of the angular velocity bounds. -/
theorem C9_assemble_clips_bounds (m : DubinsV2) (hv : m.v_min ≤ m.v_max)
    (hw : m.w_min ≤ m.w_max) (n k ku : ℕ) (x : StateTensor) (u : CtrlTensor)
    (pad : PadMode) (T : Traj)
    (hT : assembleTrajectoryV2 m n k x ku u pad = some T) (i j : ℕ) :
    m.v_min ≤ T.speed i j ∧ T.speed i j ≤ m.v_max ∧
    m.w_min ≤ T.angular_speed i j ∧ T.angular_speed i j ≤ m.w_max := by
  have key : ∀ (kk : ℕ) (w : CtrlTensor), assembleFinishV2 m n k x kk w = some T →
      m.v_min ≤ T.speed i j ∧ T.speed i j ≤ m.v_max ∧
      m.w_min ≤ T.angular_speed i j ∧ T.angular_speed i j ≤ m.w_max := by
    intro kk w hw2
    simp only [assembleFinishV2, mkTrajectory] at hw2
    split_ifs at hw2 with hcond
    have hrec := Option.some.inj hw2
    subst hrec
    exact ⟨(clipByValue_bounds _ _ _ hv).1, (clipByValue_bounds _ _ _ hv).2,
      (clipByValue_bounds _ _ _ hw).1, (clipByValue_bounds _ _ _ hw).2⟩
  cases pad with
  | noPad => exact key _ _ hT
  | zeroPad =>
    simp only [assembleTrajectoryV2] at hT
    split_ifs at hT <;> exact key _ _ hT
  | repeatLast =>
    simp only [assembleTrajectoryV2] at hT
    split_ifs at hT <;> exact key _ _ hT

/-- C9 witness: the default model assembling the concrete one-step batch
yields exTraj, and its stored speed respects the lower bound. -/
theorem C9_assemble_clips_bounds_witness :
    dubinsDefault.v_min ≤ dubinsDefault.v_max ∧ dubinsDefault.w_min ≤ dubinsDefault.w_max ∧
    assembleTrajectoryV2 dubinsDefault 1 1 exX0 1 exUhalf PadMode.noPad = some exTraj ∧
    dubinsDefault.v_min ≤ exTraj.speed 0 0 :=
  ⟨by norm_num [dubinsDefault], by norm_num [dubinsDefault], rfl,
   (C9_assemble_clips_bounds dubinsDefault (by norm_num [dubinsDefault])
      (by norm_num [dubinsDefault]) 1 1 1 exX0 exUhalf PadMode.noPad exTraj rfl 0 0).1⟩

/-- C10 counterexample.  The claim states fit with a zero shaping factor,
in particular the heuristic default at a goal on the origin, fails fast
with a descriptive error and never reaches the division c3 = v0 / f1.  The
source has no validation: at the origin goal the default factors are zero
and fit still returns a full coefficient record whose c3 is the division
v0 / 0 (inf or nan in the float source; the division-by-zero convention of
the real-valued model returns 0). -/
theorem C10_counterexample :
    heuristicFactor c10Goal = 0 ∧
    fitSplineDefault c2Start c10Goal = fitSpline c2Start c10Goal 0 0 ∧
    (fitSplineDefault c2Start c10Goal).c3 = c2Start.v0 / 0 ∧
    (fitSplineDefault c2Start c10Goal).c3 = 0 ∧
    (fitSplineDefault c2Start c10Goal).a3 = -2 ∧
    (fitSplineDefault c2Start c10Goal).b3 = 3 := by
  have h0 : heuristicFactor c10Goal = 0 := by
    simp [heuristicFactor, c10Goal]
  have hfit : fitSplineDefault c2Start c10Goal = fitSpline c2Start c10Goal 0 0 := by
    rw [fitSplineDefault, h0]
  refine ⟨h0, hfit, ?_, ?_, ?_, ?_⟩ <;>
    rw [hfit] <;> simp [fitSpline, c2Start, c10Goal] <;> norm_num

/-- C10 amended.  fit performs no validation of the shaping factors: for
every goal whose position is the origin, the heuristic default factor is
zero, fit still produces a coefficient record, and its c3 coefficient is
the division v0 / 0 rather than the result of a raised error. -/
theorem C10_fit_no_factor_validation (s : Start5) (g : Goal5) (hx : g.xg = 0) (hy : g.yg = 0) :
    heuristicFactor g = 0 ∧
    fitSplineDefault s g = fitSpline s g 0 0 ∧
    (fitSplineDefault s g).c3 = s.v0 / 0 ∧
    (fitSplineDefault s g).d1 = s.x0 := by
  have h0 : heuristicFactor g = 0 := by
    simp [heuristicFactor, hx, hy]
  refine ⟨h0, by rw [fitSplineDefault, h0], ?_, rfl⟩
  rw [fitSplineDefault, h0]
  rfl

/-- C10 witness: the amended statement applied at the concrete origin
goal. -/
theorem C10_fit_no_factor_validation_witness :
    c10Goal.xg = 0 ∧ c10Goal.yg = 0 ∧ heuristicFactor c10Goal = 0 :=
  ⟨rfl, rfl, (C10_fit_no_factor_validation c2Start c10Goal rfl rfl).1⟩

/-- C4 witness: the saturation statement applied at the concrete default
model, zero states and one-half controls. -/
theorem C4_saturation_witness :
    dubinsDefault.v_min ≤ dubinsDefault.v_max ∧ dubinsDefault.w_min ≤ dubinsDefault.w_max ∧
    dubinsDefault.s1 (exUhalf 0 0 0) =
      (if exUhalf 0 0 0 < dubinsDefault.v_min then dubinsDefault.v_min
       else if dubinsDefault.v_max < exUhalf 0 0 0 then dubinsDefault.v_max
       else exUhalf 0 0 0) :=
  ⟨by norm_num [dubinsDefault], by norm_num [dubinsDefault],
   (C4_saturation dubinsDefault (by norm_num [dubinsDefault]) (by norm_num [dubinsDefault])
      exX0 exUhalf exTraj 0 0).1⟩
